import Mathlib

/-!
Verification of `sentry-samples-android/src/main/cpp/native-sample.cpp`.

The file exposes two JNI entry points:

* `Java_io_sentry_sample_NativeSample_crash` logs a line and then writes
  through a null pointer (`char *ptr = 0; *ptr += 1;`);
* `Java_io_sentry_sample_NativeSample_message` logs a line, builds a sentry
  message event with `sentry_value_new_message_event(SENTRY_LEVEL_INFO,
  "custom", "It works!")` and hands it to `sentry_capture_event`.

We embed each entry point as a pure function from the JNI arguments and the
ambient reporter session to an execution result: the ordered list of
observable effects, the control outcome (normal return or memory fault), and
the session state afterwards.  The sentry SDK is an external dependency, so
its two calls are modelled from the spec (see their doc comments); the bodies
of the two entry points are translated directly from the C++ source.
-/

/-- Severity levels of the reporting SDK (`sentry_level_e`). -/
inductive Level
  | debug
  | info
  | warning
  | error
  | fatal
  deriving DecidableEq, Repr

/-- A diagnostic event: severity, source tag, and message payload
(the three arguments of `sentry_value_new_message_event`). -/
structure Event where
  level : Level
  logger : String
  message : String
  deriving DecidableEq, Repr

/-- Whether the ambient reporting session can accept events.
`uninit` stands for an uninitialized session. -/
inductive SessionState
  | uninit
  | misconfigured
  | healthy
  deriving DecidableEq, Repr

/-- The ambient `ReporterSession`: process-wide reporting state whose
configuration (endpoint, credentials, sampling) is supplied externally. -/
structure ReporterSession where
  state : SessionState
  endpoint : String
  credentials : String
  sampling : Nat
  deriving DecidableEq, Repr

/-- Observable effects of one entry-point execution, in program order. -/
inductive Effect
  | logLine (tag : String) (msg : String)
  | write (addr : Nat)
  | submit (e : Event)
  deriving DecidableEq, Repr

/-- How control leaves an entry point. -/
inductive Outcome
  | returns
  | faulted
  deriving DecidableEq, Repr

/-- Result of executing one entry point: its effect trace, how control left
it, and the reporter session afterwards. -/
structure ExecResult where
  trace : List Effect
  outcome : Outcome
  session : ReporterSession
  deriving DecidableEq, Repr

/-- Opaque handle standing for the `JNIEnv *` argument. -/
structure JNIEnvPtr where
  id : Nat
  deriving DecidableEq, Repr

/-- Opaque handle standing for the `jclass` argument. -/
structure JClass where
  id : Nat
  deriving DecidableEq, Repr

/-- Platform semantics of a one-byte store: address 0 is the unmapped null
page, so a write through it faults; any other address in this model is
writable and the store returns. -/
def writeOutcome (addr : Nat) : Outcome :=
  if addr = 0 then Outcome.faulted else Outcome.returns

/-- `sentry_value_new_message_event(level, logger, message)`: packs the three
arguments into an event value. -/
def sentry_value_new_message_event (level : Level) (logger : String)
    (message : String) : Event :=
  { level := level, logger := logger, message := message }

/-- Modelled from the spec: `sentry_capture_event` belongs to the external
sentry SDK, whose source is not part of this repository.  Per the spec it is
fire-and-forget: it records one submission attempt of the event against the
ambient session, swallows every failure (a session that is uninitialized or
misconfigured included), never reconfigures the session, and always returns
normally to its caller. -/
def sentry_capture_event (s : ReporterSession) (e : Event) :
    List Effect × Outcome × ReporterSession :=
  ([Effect.submit e], Outcome.returns, s)

/-- `Java_io_sentry_sample_NativeSample_crash`: logs "About to crash." with
tag "sentry-sample", then performs `char *ptr = 0; *ptr += 1;` — a read-
modify-write through the null pointer.  The write is the faulting step. -/
def Java_io_sentry_sample_NativeSample_crash (env : JNIEnvPtr) (cls : JClass)
    (s : ReporterSession) : ExecResult :=
  let t0 : List Effect := [Effect.logLine "sentry-sample" "About to crash."]
  let ptr : Nat := 0
  { trace := t0 ++ [Effect.write ptr]
    outcome := writeOutcome ptr
    session := s }

/-- `Java_io_sentry_sample_NativeSample_message`: logs "Sending message."
with tag "sentry-sample", builds the fixed message event (level info, logger
"custom", message "It works!") and passes it to `sentry_capture_event`. -/
def Java_io_sentry_sample_NativeSample_message (env : JNIEnvPtr) (cls : JClass)
    (s : ReporterSession) : ExecResult :=
  let t0 : List Effect := [Effect.logLine "sentry-sample" "Sending message."]
  let event : Event :=
    sentry_value_new_message_event Level.info "custom" "It works!"
  let r := sentry_capture_event s event
  { trace := t0 ++ r.1
    outcome := r.2.1
    session := r.2.2 }

/-- Does this effect submit an event to the session? -/
def isSubmit : Effect → Bool
  | Effect.submit _ => true
  | _ => false

/-- `n` consecutive calls of the message entry point, threading the session
state from each call into the next. -/
def message_repeat (env : JNIEnvPtr) (cls : JClass) :
    Nat → ReporterSession → ReporterSession
  | 0, s => s
  | n + 1, s =>
      message_repeat env cls n
        (Java_io_sentry_sample_NativeSample_message env cls s).session

/-- C1: for every session state (uninitialized, misconfigured, or healthy)
and any JNI arguments, the message entry point returns normally to its
caller: its outcome is a normal return, never a fault, so no error is
observable by the caller and any submission failure is swallowed. -/
theorem message_never_raises (env : JNIEnvPtr) (cls : JClass)
    (s : ReporterSession) :
    (Java_io_sentry_sample_NativeSample_message env cls s).outcome =
      Outcome.returns := rfl

/-- C2: every call of the crash entry point performs a write through the
null pointer (address 0 appears as a write in its trace) and its outcome is
an abnormal fault, so control never returns to the caller. -/
theorem crash_always_faults (env : JNIEnvPtr) (cls : JClass)
    (s : ReporterSession) :
    Effect.write 0 ∈ (Java_io_sentry_sample_NativeSample_crash env cls s).trace
      ∧ (Java_io_sentry_sample_NativeSample_crash env cls s).outcome =
          Outcome.faulted :=
  ⟨List.Mem.tail _ (List.Mem.head _), rfl⟩

/-- C3: every call of the message entry point submits an event whose three
fields are exactly level = info, logger = "custom", message = "It works!",
and every event submitted during the call has exactly those fields. -/
theorem message_event_fields (env : JNIEnvPtr) (cls : JClass)
    (s : ReporterSession) :
    Effect.submit ⟨Level.info, "custom", "It works!"⟩ ∈
      (Java_io_sentry_sample_NativeSample_message env cls s).trace
    ∧ ∀ e : Event,
        Effect.submit e ∈
          (Java_io_sentry_sample_NativeSample_message env cls s).trace →
        e = ⟨Level.info, "custom", "It works!"⟩ := by
  constructor
  · exact List.Mem.tail _ (List.Mem.head _)
  · intro e he
    simp [Java_io_sentry_sample_NativeSample_message,
      sentry_capture_event, sentry_value_new_message_event] at he
    exact he

/-- C3 witness: the bare statement at concrete inputs. -/
theorem message_event_fields_witness :
    Effect.submit ⟨Level.info, "custom", "It works!"⟩ ∈
      (Java_io_sentry_sample_NativeSample_message ⟨0⟩ ⟨0⟩
        ⟨SessionState.healthy, "", "", 0⟩).trace
    ∧ (⟨Level.info, "custom", "It works!"⟩ : Event) =
        ⟨Level.info, "custom", "It works!"⟩ :=
  ⟨(message_event_fields ⟨0⟩ ⟨0⟩ ⟨SessionState.healthy, "", "", 0⟩).1,
   (message_event_fields ⟨0⟩ ⟨0⟩ ⟨SessionState.healthy, "", "", 0⟩).2
     ⟨Level.info, "custom", "It works!"⟩
     (List.Mem.tail _ (List.Mem.head _))⟩

/-- C4: in every execution of the crash entry point the diagnostic log line
occurs in the trace, the null-pointer write occurs in the trace, and every
occurrence of the write is strictly preceded by a log line: the fault never
happens before the log line. -/
theorem crash_logs_before_fault (env : JNIEnvPtr) (cls : JClass)
    (s : ReporterSession) :
    (∃ j : Nat,
      (Java_io_sentry_sample_NativeSample_crash env cls s).trace.get? j =
        some (Effect.write 0))
    ∧ ∀ j : Nat,
        (Java_io_sentry_sample_NativeSample_crash env cls s).trace.get? j =
          some (Effect.write 0) →
        ∃ i : Nat, i < j ∧
          (Java_io_sentry_sample_NativeSample_crash env cls s).trace.get? i =
            some (Effect.logLine "sentry-sample" "About to crash.") := by
  refine ⟨⟨1, rfl⟩, ?_⟩
  intro j hj
  match j with
  | 0 => exact absurd hj (by simp [Java_io_sentry_sample_NativeSample_crash])
  | 1 => exact ⟨0, Nat.zero_lt_one, rfl⟩
  | n + 2 =>
      exact absurd hj (by simp [Java_io_sentry_sample_NativeSample_crash])

/-- C4 witness: at concrete inputs, position 1 of the trace is the write and
position 0, strictly before it, is the log line. -/
theorem crash_logs_before_fault_witness :
    ∃ i : Nat, i < 1 ∧
      (Java_io_sentry_sample_NativeSample_crash ⟨0⟩ ⟨0⟩
        ⟨SessionState.healthy, "", "", 0⟩).trace.get? i =
        some (Effect.logLine "sentry-sample" "About to crash.") :=
  (crash_logs_before_fault ⟨0⟩ ⟨0⟩ ⟨SessionState.healthy, "", "", 0⟩).2 1 rfl

/-- C5: if the reporter session is uninitialized, a call of the message
entry point still returns normally, and its trace contains no memory write
at all, so the process does not fault: the call is at most a silent
failure, never a crash. -/
theorem message_uninit_no_crash (env : JNIEnvPtr) (cls : JClass)
    (s : ReporterSession) (h : s.state = SessionState.uninit) :
    (Java_io_sentry_sample_NativeSample_message env cls s).outcome =
        Outcome.returns
    ∧ ∀ a : Nat,
        Effect.write a ∉
          (Java_io_sentry_sample_NativeSample_message env cls s).trace := by
  refine ⟨rfl, ?_⟩
  intro a ha
  simp [Java_io_sentry_sample_NativeSample_message, sentry_capture_event,
    sentry_value_new_message_event] at ha

/-- C5 witness: a concrete uninitialized session on which the theorem
applies. -/
theorem message_uninit_no_crash_witness :
    (⟨SessionState.uninit, "", "", 0⟩ : ReporterSession).state =
        SessionState.uninit
    ∧ (Java_io_sentry_sample_NativeSample_message ⟨0⟩ ⟨0⟩
        ⟨SessionState.uninit, "", "", 0⟩).outcome = Outcome.returns :=
  ⟨rfl,
   (message_uninit_no_crash ⟨0⟩ ⟨0⟩ ⟨SessionState.uninit, "", "", 0⟩ rfl).1⟩

/-- C6: for every repetition count `n`, after `n` consecutive calls of the
message entry point the session equals the starting session (no state
accumulates across calls), and the `(n+1)`-st call behaves exactly like the
first call (same trace, outcome, and resulting session), so no error arises
in a later call that did not arise in the first. -/
theorem message_calls_independent (env : JNIEnvPtr) (cls : JClass)
    (n : Nat) (s : ReporterSession) :
    message_repeat env cls n s = s
    ∧ Java_io_sentry_sample_NativeSample_message env cls
        (message_repeat env cls n s) =
      Java_io_sentry_sample_NativeSample_message env cls s := by
  have h : ∀ m : Nat, ∀ t : ReporterSession, message_repeat env cls m t = t := by
    intro m
    induction m with
    | zero => intro t; rfl
    | succ k ih =>
        intro t
        show message_repeat env cls k
          (Java_io_sentry_sample_NativeSample_message env cls t).session = t
        exact ih _
  exact ⟨h n s, by rw [h n s]⟩

/-- C7: the message entry point treats the ambient reporter session as
read-only: after any call every configuration field (state, endpoint,
credentials, sampling) is unchanged, and in fact the whole session record
is unchanged. -/
theorem message_session_readonly (env : JNIEnvPtr) (cls : JClass)
    (s : ReporterSession) :
    (Java_io_sentry_sample_NativeSample_message env cls s).session = s
    ∧ (Java_io_sentry_sample_NativeSample_message env cls s).session.state =
        s.state
    ∧ (Java_io_sentry_sample_NativeSample_message env cls s).session.endpoint =
        s.endpoint
    ∧ (Java_io_sentry_sample_NativeSample_message env cls
        s).session.credentials = s.credentials
    ∧ (Java_io_sentry_sample_NativeSample_message env cls s).session.sampling =
        s.sampling :=
  ⟨rfl, rfl, rfl, rfl, rfl⟩

/-- C8: every call of the message entry point submits exactly one event —
the freshly constructed message event — to the session: the submission
effects of its trace are exactly one submission of that event. -/
theorem message_submits_once (env : JNIEnvPtr) (cls : JClass)
    (s : ReporterSession) :
    (Java_io_sentry_sample_NativeSample_message env cls s).trace.filter
        isSubmit =
      [Effect.submit
        (sentry_value_new_message_event Level.info "custom" "It works!")]
    ∧ ((Java_io_sentry_sample_NativeSample_message env cls s).trace.filter
        isSubmit).length = 1 :=
  ⟨rfl, rfl⟩

/-- C9: the crash entry point never interacts with the reporting session:
its trace contains no event submission, the session is unchanged, and its
whole trace is a single log line followed by the faulting write — so its
only observable effect before the fault is that one log line. -/
theorem crash_no_session_interaction (env : JNIEnvPtr) (cls : JClass)
    (s : ReporterSession) :
    (Java_io_sentry_sample_NativeSample_crash env cls s).session = s
    ∧ (∀ e : Event,
        Effect.submit e ∉
          (Java_io_sentry_sample_NativeSample_crash env cls s).trace)
    ∧ (Java_io_sentry_sample_NativeSample_crash env cls s).trace =
        [Effect.logLine "sentry-sample" "About to crash.", Effect.write 0] := by
  refine ⟨rfl, ?_, rfl⟩
  intro e he
  simp [Java_io_sentry_sample_NativeSample_crash] at he

/-- C9 witness: at concrete inputs, the session is unchanged and the
submission of a sample event does not occur in the trace. -/
theorem crash_no_session_interaction_witness :
    (Java_io_sentry_sample_NativeSample_crash ⟨0⟩ ⟨0⟩
        ⟨SessionState.healthy, "", "", 0⟩).session =
      ⟨SessionState.healthy, "", "", 0⟩
    ∧ Effect.submit ⟨Level.info, "custom", "It works!"⟩ ∉
        (Java_io_sentry_sample_NativeSample_crash ⟨0⟩ ⟨0⟩
          ⟨SessionState.healthy, "", "", 0⟩).trace :=
  ⟨(crash_no_session_interaction ⟨0⟩ ⟨0⟩ ⟨SessionState.healthy, "", "", 0⟩).1,
   (crash_no_session_interaction ⟨0⟩ ⟨0⟩
      ⟨SessionState.healthy, "", "", 0⟩).2.1
     ⟨Level.info, "custom", "It works!"⟩⟩

/-- C10: both entry points ignore their JNI arguments entirely: for any two
values of the environment pointer and class arguments and the same session,
the crash entry point produces the same execution result, and so does the
message entry point — their behavior is a function of the session alone. -/
theorem entry_points_ignore_jni_args (env₁ env₂ : JNIEnvPtr)
    (cls₁ cls₂ : JClass) (s : ReporterSession) :
    Java_io_sentry_sample_NativeSample_crash env₁ cls₁ s =
        Java_io_sentry_sample_NativeSample_crash env₂ cls₂ s
    ∧ Java_io_sentry_sample_NativeSample_message env₁ cls₁ s =
        Java_io_sentry_sample_NativeSample_message env₂ cls₂ s :=
  ⟨rfl, rfl⟩
